import Mathlib

/-!
Shallow embedding of `superset/db_engine_specs/trino.py` (`TrinoEngineSpec`),
the Trino dialect adapter: time-grain templates, datetime literal
formatting, URI schema adjustment, impersonation configuration and the
secure connection-parameter builder, together with proofs of the
specification's claims about them.
-/

namespace TrinoSpec

/-- One character of Python's `str.upper()` for the basic latin range
(the only range the target-type keywords use). -/
def pyUpperChar (c : Char) : Char :=
  if 97 ≤ c.toNat ∧ c.toNat ≤ 122 then Char.ofNat (c.toNat - 32) else c

/-- `target_type.upper()` as `convert_dttm` applies it. -/
def pyUpper (s : String) : String :=
  ⟨s.data.map pyUpperChar⟩

/-- Zero-padded decimal rendering, Python's `%0wd` as used by
`datetime.isoformat` for each field. -/
def padNum (w n : Nat) : String :=
  let ds := Nat.toDigits 10 n
  ⟨List.replicate (w - ds.length) '0' ++ ds⟩

/-- A Python `datetime` value: calendar fields plus an optional UTC offset.
`tzOffsetMinutes = none` models a timezone-naive value; offsets are modelled
at minute resolution, the resolution of standard time zones. -/
structure PyDatetime where
  year : Nat
  month : Nat
  day : Nat
  hour : Nat
  minute : Nat
  second : Nat
  microsecond : Nat
  tzOffsetMinutes : Option Int
deriving DecidableEq

/-- `dttm.date().isoformat()`. -/
def PyDatetime.dateIso (d : PyDatetime) : String :=
  padNum 4 d.year ++ "-" ++ padNum 2 d.month ++ "-" ++ padNum 2 d.day

/-- The time-of-day part of `isoformat` at microsecond precision. -/
def PyDatetime.timeIsoMicro (d : PyDatetime) : String :=
  padNum 2 d.hour ++ ":" ++ padNum 2 d.minute ++ ":" ++ padNum 2 d.second
    ++ "." ++ padNum 6 d.microsecond

/-- The UTC-offset suffix `isoformat` appends for aware values
(empty for naive ones). -/
def utcOffsetSuffix : Option Int → String
  | none => ""
  | some off =>
    let sign := if off < 0 then "-" else "+"
    let a := off.natAbs
    sign ++ padNum 2 (a / 60) ++ ":" ++ padNum 2 (a % 60)

/-- `dttm.isoformat(timespec="microseconds", sep=" ")`. -/
def PyDatetime.isoformatMicroSpace (d : PyDatetime) : String :=
  d.dateIso ++ " " ++ d.timeIsoMicro ++ utcOffsetSuffix d.tzOffsetMinutes

/-- `TrinoEngineSpec.convert_dttm`: format a datetime as a Trino SQL literal
for the given target type, or `none` for unsupported types. -/
def convert_dttm (target_type : String) (dttm : PyDatetime) : Option String :=
  if pyUpper target_type = "DATE" then
    some ("DATE \x27" ++ dttm.dateIso ++ "\x27")
  else if pyUpper target_type = "TIMESTAMP"
      ∨ pyUpper target_type = "TIMESTAMP WITH TIME ZONE" then
    some ("TIMESTAMP \x27" ++ dttm.isoformatMicroSpace ++ "\x27")
  else
    none

/-- `TrinoEngineSpec._time_grain_expressions`: the dict as the lookup it
denotes, from grain identifier (`none` is the Python `None` key) to the
SQL expression template. -/
def _time_grain_expressions : Option String → Option String
  | none => some "{col}"
  | some "PT1S" => some "date_trunc(\x27second\x27, CAST({col} AS TIMESTAMP))"
  | some "PT1M" => some "date_trunc(\x27minute\x27, CAST({col} AS TIMESTAMP))"
  | some "PT1H" => some "date_trunc(\x27hour\x27, CAST({col} AS TIMESTAMP))"
  | some "P1D" => some "date_trunc(\x27day\x27, CAST({col} AS TIMESTAMP))"
  | some "P1W" => some "date_trunc(\x27week\x27, CAST({col} AS TIMESTAMP))"
  | some "P1M" => some "date_trunc(\x27month\x27, CAST({col} AS TIMESTAMP))"
  | some "P3M" => some "date_trunc(\x27quarter\x27, CAST({col} AS TIMESTAMP))"
  | some "P1Y" => some "date_trunc(\x27year\x27, CAST({col} AS TIMESTAMP))"
  | some _ => none

/-- The keys of the `_time_grain_expressions` dict. -/
def timeGrainKeys : List (Option String) :=
  [none, some "PT1S", some "PT1M", some "PT1H", some "P1D",
   some "P1W", some "P1M", some "P3M", some "P1Y"]

/-- Number of positions of `l` at which the pattern `pat` occurs. -/
def countOccs (pat : List Char) : List Char → Nat
  | [] => 0
  | c :: rest => (if pat.isPrefixOf (c :: rest) then 1 else 0) + countOccs pat rest

/-- Number of occurrences of the `{col}` placeholder in a template. -/
def countPlaceholder (s : String) : Nat :=
  countOccs "{col}".data s.data

/-- The bytes `urllib.parse.quote` never encodes (its `ALWAYS_SAFE` set):
ASCII letters, digits and `_.-~`. -/
def isAlwaysSafe (b : Nat) : Bool :=
  decide ((65 ≤ b ∧ b ≤ 90) ∨ (97 ≤ b ∧ b ≤ 122) ∨ (48 ≤ b ∧ b ≤ 57)
    ∨ b = 45 ∨ b = 46 ∨ b = 95 ∨ b = 126)

/-- Upper-case hexadecimal digit, as `quote` renders escape bytes. -/
def hexUpper (n : Nat) : Char :=
  if n < 10 then Char.ofNat (48 + n) else Char.ofNat (55 + n)

/-- Percent-encoding of one byte by `urllib.parse.quote` with `safe=""`:
always-safe bytes pass through, every other byte becomes `%XX`. -/
def quoteByte (b : Nat) : List Char :=
  if isAlwaysSafe b then [Char.ofNat b]
  else ['%', hexUpper (b / 16), hexUpper (b % 16)]

/-- `parse.quote(s, safe="")`: encode the string as UTF-8, then
percent-encode every byte outside the always-safe set (the empty `safe`
argument adds nothing to it). -/
def pyQuote (s : String) : String :=
  ⟨(s.data.flatMap String.utf8EncodeChar).flatMap (fun b => quoteByte b.toNat)⟩

/-- The component of a SQLAlchemy `URL` object this adapter mutates. -/
structure URL where
  database : Option String
deriving DecidableEq

/-- `database.split("/")[0]`: the text before the first slash
(the whole string when it has no slash). -/
def takeBeforeSlash (s : String) : String :=
  ⟨s.data.takeWhile (fun c => c ≠ '/')⟩

/-- `TrinoEngineSpec.adjust_database_uri`: when both `selected_schema` and
`uri.database` are Python-truthy (present and non-empty), rewrite
`uri.database` to `<catalog>/<percent-encoded schema>`. -/
def adjust_database_uri (uri : URL) (selected_schema : Option String) : URL :=
  match uri.database, selected_schema with
  | some db, some sch =>
    if sch ≠ "" ∧ db ≠ "" then
      { uri with database := some (takeBeforeSlash db ++ "/" ++ pyQuote sch) }
    else uri
  | _, _ => uri

/-- The `auth_params` object: arbitrary keyword construction arguments,
passed verbatim to the strategy constructor. Modelled as key/value pairs;
the adapter never inspects them. -/
abbrev AuthParams := List (String × String)

/-- The authentication object stored under `connect_args["auth"]`: which
constructor ran (built-in `trino.auth` classes or an allow-listed custom
factory) and the keyword arguments it received. -/
inductive AuthStrategy where
  | basic (params : AuthParams)
  | kerberos (params : AuthParams)
  | jwt (params : AuthParams)
  | custom (name : String) (params : AuthParams)
deriving DecidableEq

/-- The keys of a `connect_args` dict that this adapter reads or writes;
`others` carries every remaining entry, which the adapter never touches. -/
structure ConnectArgs where
  user : Option String := none
  http_scheme : Option String := none
  verify : Option String := none
  auth : Option AuthStrategy := none
  others : List (String × String) := []
deriving DecidableEq

/-- Outcome of `json.loads` on the encrypted-extra blob. The JSON library
is an external collaborator, so a blob is modelled by what parsing it
yields: a `JSONDecodeError`, or an object with its optional `auth_method`
and `auth_params` fields (`auth_method = some ""` models the key present
with an empty value). -/
inductive EncryptedExtra where
  | malformed (msg : String)
  | parsed (auth_method : Option String) (auth_params : Option AuthParams)
deriving DecidableEq

/-- The fields of the database record this adapter reads.
`encrypted_extra = none` models a Python-falsy blob (`None` or the empty
string), for which `update_encrypted_extra_params` returns at once;
likewise `server_cert = none` models a falsy certificate. -/
structure Database where
  server_cert : Option String := none
  encrypted_extra : Option EncryptedExtra := none
deriving DecidableEq

/-- The `params` dict handed to `update_encrypted_extra_params` (and the
`engine_params` sub-dict of the extras): a `connect_args` entry that may be
absent, plus untouched other entries. -/
structure EngineParams where
  connect_args : Option ConnectArgs := none
  others : List (String × String) := []
deriving DecidableEq

/-- The extra-parameters dict built by `get_extra_params`. -/
structure Extra where
  engine_params : Option EngineParams := none
  others : List (String × String) := []
deriving DecidableEq

/-- `TrinoEngineSpec.get_extra_params`. `base` is the dict returned by the
framework's `BaseEngineSpec.get_extra_params` (an external collaborator)
and `create_ssl_cert_file` abstracts `utils.create_ssl_cert_file`, which
materializes the certificate to a file and returns its path. The two
`setdefault` calls make `engine_params.connect_args` present in the result
even when nothing is written to it. -/
def get_extra_params (create_ssl_cert_file : String → String)
    (database : Database) (base : Extra) : Extra :=
  let ep := base.engine_params.getD {}
  let ca := ep.connect_args.getD {}
  match database.server_cert with
  | some cert =>
    if cert ≠ "" then
      let tls := { ca with http_scheme := some "https", verify := some (create_ssl_cert_file cert) }
      { base with engine_params := some { ep with connect_args := some tls } }
    else
      { base with engine_params := some { ep with connect_args := some ca } }
  | none =>
      { base with engine_params := some { ep with connect_args := some ca } }

/-- The exceptions `update_encrypted_extra_params` can raise: the re-raised
`json.JSONDecodeError`, or the `ValueError` rejecting a custom
authentication method that is not allow-listed. -/
inductive TrinoError where
  | jsonDecodeError (msg : String)
  | securityValueError (auth_method : String)
deriving DecidableEq

/-- `TrinoEngineSpec.update_encrypted_extra_params`. `allowed_extra_auths`
is `current_app.config["ALLOWED_EXTRA_AUTHENTICATIONS"].get("trino", {})`,
the process-wide allow-list of custom method names (read-only at request
time). The result pairs the caller's `params` dict after the call with the
exception raised, if any: a raise does not roll back in-place mutations,
so they stay visible in the first component. The `logger.error` call on
the parse path is a diagnostic side channel with no effect on the data. -/
def update_encrypted_extra_params (allowed_extra_auths : List String)
    (database : Database) (params : EngineParams) :
    EngineParams × Option TrinoError :=
  match database.encrypted_extra with
  | none => (params, none)
  | some (.malformed msg) => (params, some (.jsonDecodeError msg))
  | some (.parsed auth_method auth_params) =>
    let auth_params := auth_params.getD []
    match auth_method with
    | none => (params, none)
    | some m =>
      if m = "" then (params, none)
      else
        let ca := params.connect_args.getD {}
        let ca := { ca with http_scheme := some "https" }
        if m = "basic" then
          ({ params with connect_args := some { ca with auth := some (.basic auth_params) } }, none)
        else if m = "kerberos" then
          ({ params with connect_args := some { ca with auth := some (.kerberos auth_params) } }, none)
        else if m = "jwt" then
          ({ params with connect_args := some { ca with auth := some (.jwt auth_params) } }, none)
        else if m ∈ allowed_extra_auths then
          ({ params with connect_args := some { ca with auth := some (.custom m auth_params) } }, none)
        else
          ({ params with connect_args := some ca }, some (.securityValueError m))

/-- `sqlalchemy.make_url(uri).get_backend_name()` (external collaborator):
the drivername is the text before `://`, and the backend name is its part
before any `+`. -/
def get_backend_name (uri : String) : String :=
  ⟨(uri.data.takeWhile (fun c => c ≠ ':')).takeWhile (fun c => c ≠ '+')⟩

/-- `TrinoEngineSpec.update_impersonation_config`: set
`connect_args["user"]` to the effective username when the URI's backend is
`"trino"` and the username is not `None`. -/
def update_impersonation_config (connect_args : ConnectArgs) (uri : String)
    (username : Option String) : ConnectArgs :=
  let backend_name := get_backend_name uri
  match username with
  | some u =>
    if backend_name = "trino" then { connect_args with user := some u }
    else connect_args
  | none => connect_args

/-! ### Helper lemmas -/

theorem pyUpperChar_idem (c : Char) : pyUpperChar (pyUpperChar c) = pyUpperChar c := by
  by_cases h : 97 ≤ c.toNat ∧ c.toNat ≤ 122
  · have hc : pyUpperChar c = Char.ofNat (c.toNat - 32) := by
      unfold pyUpperChar
      rw [if_pos h]
    rw [hc]
    obtain ⟨h1, h2⟩ := h
    obtain ⟨n, hn⟩ : ∃ n, c.toNat = n := ⟨_, rfl⟩
    rw [hn] at h1 h2 ⊢
    interval_cases n <;> decide
  · have hc : pyUpperChar c = c := by
      unfold pyUpperChar
      rw [if_neg h]
    rw [hc, hc]

theorem pyUpper_idem (s : String) : pyUpper (pyUpper s) = pyUpper s := by
  apply String.ext
  show (s.data.map pyUpperChar).map pyUpperChar = s.data.map pyUpperChar
  rw [List.map_map]
  exact List.map_congr_left (fun c _ => pyUpperChar_idem c)

set_option maxRecDepth 4096 in
theorem quoteByte_no_slash : ∀ b < 256, '/' ∉ quoteByte b := by decide

theorem pyQuote_no_slash (s : String) : '/' ∉ (pyQuote s).data := by
  intro hmem
  have hmem' : '/' ∈ (s.data.flatMap String.utf8EncodeChar).flatMap
      (fun b => quoteByte b.toNat) := hmem
  obtain ⟨b, -, hb⟩ := List.mem_flatMap.mp hmem'
  exact quoteByte_no_slash b.toNat b.toNat_lt_size hb

theorem mem_takeWhile_sat {p : Char → Bool} (l : List Char) :
    ∀ c ∈ l.takeWhile p, p c := by
  induction l with
  | nil => intro c h; simp at h
  | cons a as ih =>
    intro c h
    rw [List.takeWhile_cons] at h
    by_cases hp : p a
    · rw [if_pos hp] at h
      rcases List.mem_cons.mp h with h1 | h2
      · rwa [h1]
      · exact ih c h2
    · rw [if_neg hp] at h
      simp at h

theorem takeWhile_append_stop {p : Char → Bool} (l₁ l₂ : List Char) (c : Char)
    (h1 : ∀ x ∈ l₁, p x) (hc : p c = false) :
    (l₁ ++ c :: l₂).takeWhile p = l₁ := by
  induction l₁ with
  | nil => simp [List.takeWhile_cons, hc]
  | cons a as ih =>
    have ha : p a := h1 a (List.mem_cons_self a as)
    simp [List.takeWhile_cons, ha,
      ih (fun x hx => h1 x (List.mem_cons_of_mem a hx))]

theorem takeBeforeSlash_no_slash (s : String) : '/' ∉ (takeBeforeSlash s).data := by
  intro h
  have := mem_takeWhile_sat (p := fun c => c ≠ '/') s.data _ h
  simp at this

theorem takeBeforeSlash_append (cat enc : String) (h : '/' ∉ cat.data) :
    takeBeforeSlash (cat ++ "/" ++ enc) = cat := by
  apply String.ext
  show ((cat ++ "/" ++ enc).data).takeWhile (fun c => c ≠ '/') = cat.data
  rw [String.data_append, String.data_append, List.append_assoc]
  refine takeWhile_append_stop cat.data enc.data '/' (fun x hx => ?_) (by simp)
  have hxne : x ≠ '/' := fun hh => h (hh ▸ hx)
  simpa using hxne

theorem append_slash_ne_empty (cat enc : String) : cat ++ "/" ++ enc ≠ "" := by
  intro h
  have hd : (cat ++ "/" ++ enc).data = ([] : List Char) := by rw [h]
  rw [String.data_append, String.data_append] at hd
  simp at hd

theorem adjust_database_uri_eq (db sch : String) (hdbne : db ≠ "") (hschne : sch ≠ "") :
    adjust_database_uri ⟨some db⟩ (some sch)
      = ⟨some (takeBeforeSlash db ++ "/" ++ pyQuote sch)⟩ := by
  simp [adjust_database_uri, hschne, hdbne]

/-! ### Claims -/

/-- C1: when the encrypted extra parses and names an authentication method
that is none of the built-ins `basic`, `kerberos`, `jwt` and is not in the
process-wide allow-list for engine `trino`, `update_encrypted_extra_params`
raises the security `ValueError` and `connect_args["auth"]` is never set:
the `auth` entry is exactly what the caller had, no default or
unauthenticated strategy is stored. -/
theorem disallowed_auth_method_raises (allowed_extra_auths : List String)
    (database : Database) (params : EngineParams) (m : String)
    (ap : Option AuthParams)
    (hext : database.encrypted_extra = some (.parsed (some m) ap))
    (hne : m ≠ "") (hb : m ≠ "basic") (hk : m ≠ "kerberos") (hj : m ≠ "jwt")
    (ha : m ∉ allowed_extra_auths) :
    (update_encrypted_extra_params allowed_extra_auths database params).2
        = some (.securityValueError m)
    ∧ ((update_encrypted_extra_params allowed_extra_auths database params).1.connect_args.getD {}).auth
        = (params.connect_args.getD {}).auth := by
  simp [update_encrypted_extra_params, hext, hne, hb, hk, hj, ha]

/-- C1 witness: the spec's own example, `auth_method = "evil"` with the
empty allow-list. -/
theorem disallowed_auth_method_raises_witness :
    (update_encrypted_extra_params [] ⟨none, some (.parsed (some "evil") (some []))⟩ {}).2
        = some (.securityValueError "evil")
    ∧ ((update_encrypted_extra_params [] ⟨none, some (.parsed (some "evil") (some []))⟩ {}).1.connect_args.getD {}).auth
        = (({} : EngineParams).connect_args.getD {}).auth :=
  disallowed_auth_method_raises [] _ {} "evil" (some [])
    rfl (by decide) (by decide) (by decide) (by decide) (by decide)

/-- C2: when the encrypted extra is present but does not parse as JSON,
`update_encrypted_extra_params` re-raises the decode error and returns the
caller's `params` completely unmodified. -/
theorem parse_error_atomic (allowed_extra_auths : List String)
    (database : Database) (params : EngineParams) (msg : String)
    (hext : database.encrypted_extra = some (.malformed msg)) :
    update_encrypted_extra_params allowed_extra_auths database params
      = (params, some (.jsonDecodeError msg)) := by
  simp [update_encrypted_extra_params, hext]

/-- C2 witness: a malformed blob raises and leaves `params` untouched. -/
theorem parse_error_atomic_witness :
    update_encrypted_extra_params [] ⟨none, some (.malformed "Expecting value")⟩ {}
      = ({}, some (.jsonDecodeError "Expecting value")) :=
  parse_error_atomic [] _ {} "Expecting value" rfl

/-- C3 counterexample: the claim says `connect_args` is unchanged whenever
the username is empty, but for an empty (non-`None`) username on a trino
URI the code sets `connect_args["user"] = ""`. -/
theorem impersonation_empty_username_ce :
    update_impersonation_config {} "trino://localhost:8080/hive" (some "")
      ≠ ({} : ConnectArgs) := by
  decide

/-- C3 amended: `update_impersonation_config` sets
`connect_args["user"] = username` exactly when the URI's backend is
`"trino"` and `username` is not `None` (the empty string included);
otherwise `connect_args` is unchanged. -/
theorem impersonation_sets_user_iff (connect_args : ConnectArgs)
    (uri : String) (username : Option String) :
    update_impersonation_config connect_args uri username =
      if get_backend_name uri = "trino" ∧ username ≠ none
      then { connect_args with user := username }
      else connect_args := by
  cases username with
  | none => simp [update_impersonation_config]
  | some u =>
    by_cases hb : get_backend_name uri = "trino"
    · simp [update_impersonation_config, hb]
    · simp [update_impersonation_config, hb]

/-- C4 counterexample: for a timezone-aware datetime the emitted
`TIMESTAMP` literal does carry an explicit offset suffix (`+00:00` here),
contradicting the claim that no zone suffix is ever emitted. -/
theorem convert_dttm_aware_suffix_ce :
    convert_dttm "TIMESTAMP WITH TIME ZONE" ⟨2021, 1, 1, 0, 0, 0, 0, some 0⟩
        = some "TIMESTAMP \x272021-01-01 00:00:00.000000+00:00\x27"
    ∧ convert_dttm "TIMESTAMP WITH TIME ZONE" ⟨2021, 1, 1, 0, 0, 0, 0, some 0⟩
        ≠ some ("TIMESTAMP \x27"
            ++ PyDatetime.dateIso ⟨2021, 1, 1, 0, 0, 0, 0, some 0⟩ ++ " "
            ++ PyDatetime.timeIsoMicro ⟨2021, 1, 1, 0, 0, 0, 0, some 0⟩
            ++ "\x27") := by
  decide

/-- C4 amended: for target types `TIMESTAMP` and
`TIMESTAMP WITH TIME ZONE`, `convert_dttm` emits the keyword `TIMESTAMP`
followed by the single-quoted isoformat string (space separator,
microsecond precision); for timezone-naive values that ISO string is date
and time only, with no zone suffix, while timezone-aware values carry
their UTC-offset suffix. -/
theorem convert_dttm_timestamp_literal (target_type : String)
    (dttm : PyDatetime)
    (h : target_type = "TIMESTAMP" ∨ target_type = "TIMESTAMP WITH TIME ZONE") :
    convert_dttm target_type dttm
        = some ("TIMESTAMP \x27" ++ dttm.isoformatMicroSpace ++ "\x27")
    ∧ (dttm.tzOffsetMinutes = none →
        dttm.isoformatMicroSpace = dttm.dateIso ++ " " ++ dttm.timeIsoMicro) := by
  constructor
  · have hup : pyUpper target_type = "TIMESTAMP"
        ∨ pyUpper target_type = "TIMESTAMP WITH TIME ZONE" := by
      rcases h with h | h <;> rw [h]
      · exact Or.inl (by decide)
      · exact Or.inr (by decide)
    have hne : pyUpper target_type ≠ "DATE" := by
      rcases hup with h' | h' <;> rw [h'] <;> decide
    unfold convert_dttm
    rw [if_neg hne, if_pos hup]
  · intro hnaive
    unfold PyDatetime.isoformatMicroSpace
    rw [hnaive]
    show _ ++ utcOffsetSuffix none = _
    rw [show utcOffsetSuffix none = "" from rfl, String.append_empty]

/-- C4 amended witness: a concrete naive instant formatted as a
`TIMESTAMP` literal. -/
theorem convert_dttm_timestamp_literal_witness :
    convert_dttm "TIMESTAMP" ⟨2021, 1, 1, 12, 30, 45, 123456, none⟩
        = some ("TIMESTAMP \x27"
            ++ PyDatetime.isoformatMicroSpace ⟨2021, 1, 1, 12, 30, 45, 123456, none⟩
            ++ "\x27")
    ∧ ((⟨2021, 1, 1, 12, 30, 45, 123456, none⟩ : PyDatetime).tzOffsetMinutes = none →
        PyDatetime.isoformatMicroSpace ⟨2021, 1, 1, 12, 30, 45, 123456, none⟩
          = PyDatetime.dateIso ⟨2021, 1, 1, 12, 30, 45, 123456, none⟩ ++ " "
            ++ PyDatetime.timeIsoMicro ⟨2021, 1, 1, 12, 30, 45, 123456, none⟩) :=
  convert_dttm_timestamp_literal "TIMESTAMP" _ (Or.inl rfl)

/-- C5: with a truthy database and schema, `adjust_database_uri` rewrites
`uri.database` to the catalog (the text before the first slash of the old
value, discarding any old schema) followed by the percent-encoding of the
schema with an empty safe set; the encoded schema contains no slash, so a
schema such as `a/b` stays a single path segment. -/
theorem adjust_database_uri_rewrites (uri : URL) (db sch : String)
    (hdb : uri.database = some db) (hdbne : db ≠ "") (hschne : sch ≠ "") :
    (adjust_database_uri uri (some sch)).database
        = some (takeBeforeSlash db ++ "/" ++ pyQuote sch)
    ∧ '/' ∉ (pyQuote sch).data := by
  refine ⟨?_, pyQuote_no_slash sch⟩
  obtain ⟨udb⟩ := uri
  obtain rfl : udb = some db := hdb
  rw [adjust_database_uri_eq db sch hdbne hschne]

/-- C5 witness: schema `a/b` on catalog `cat` yields the single encoded
segment `cat/a%2Fb`. -/
theorem adjust_database_uri_rewrites_witness :
    ((adjust_database_uri ⟨some "cat"⟩ (some "a/b")).database
        = some (takeBeforeSlash "cat" ++ "/" ++ pyQuote "a/b")
      ∧ '/' ∉ (pyQuote "a/b").data)
    ∧ (adjust_database_uri ⟨some "cat"⟩ (some "a/b")).database = some "cat/a%2Fb" :=
  ⟨adjust_database_uri_rewrites ⟨some "cat"⟩ "cat" "a/b" rfl (by decide) (by decide),
   by decide⟩

/-- C6: `adjust_database_uri` is idempotent — applying it twice with the
same truthy schema gives the same URL as applying it once. -/
theorem adjust_database_uri_idem (uri : URL) (db sch : String)
    (hdb : uri.database = some db) (hdbne : db ≠ "") (hschne : sch ≠ "") :
    adjust_database_uri (adjust_database_uri uri (some sch)) (some sch)
      = adjust_database_uri uri (some sch) := by
  obtain ⟨udb⟩ := uri
  obtain rfl : udb = some db := hdb
  rw [adjust_database_uri_eq db sch hdbne hschne]
  rw [adjust_database_uri_eq (takeBeforeSlash db ++ "/" ++ pyQuote sch) sch
        (append_slash_ne_empty _ _) hschne]
  rw [takeBeforeSlash_append _ _ (takeBeforeSlash_no_slash db)]

/-- C6 witness: idempotence at the concrete catalog `cat` and the
slash-carrying schema `a/b`. -/
theorem adjust_database_uri_idem_witness :
    adjust_database_uri (adjust_database_uri ⟨some "cat"⟩ (some "a/b")) (some "a/b")
      = adjust_database_uri ⟨some "cat"⟩ (some "a/b") :=
  adjust_database_uri_idem ⟨some "cat"⟩ "cat" "a/b" rfl (by decide) (by decide)

/-- C7: every enumerated grain of the catalog maps to a template containing
exactly one `\x7bcol\x7d` placeholder, and the no-grain sentinel (the
`None` key) maps to the identity template. -/
theorem time_grain_single_placeholder :
    (∀ g ∈ timeGrainKeys,
        (_time_grain_expressions g).map countPlaceholder = some 1)
    ∧ _time_grain_expressions none = some "{col}" := by
  decide

/-- C8: with neither a server certificate nor an encrypted extra,
`get_extra_params` leaves the `connect_args` content exactly as the base
extras had it (no `http_scheme`, `verify` or `auth` keys are added), and
`update_encrypted_extra_params` returns any `params` unchanged with no
error. -/
theorem no_cert_no_extra_unchanged (create_ssl_cert_file : String → String)
    (database : Database) (base : Extra) (allowed_extra_auths : List String)
    (params : EngineParams)
    (hcert : database.server_cert = none)
    (hext : database.encrypted_extra = none) :
    ((get_extra_params create_ssl_cert_file database base).engine_params.getD {}).connect_args.getD {}
        = (base.engine_params.getD {}).connect_args.getD {}
    ∧ update_encrypted_extra_params allowed_extra_auths database params
        = (params, none) := by
  constructor
  · simp [get_extra_params, hcert]
  · simp [update_encrypted_extra_params, hext]

/-- C8 witness: the empty database record against empty base extras and
empty params. -/
theorem no_cert_no_extra_unchanged_witness :
    ((get_extra_params id ⟨none, none⟩ {}).engine_params.getD {}).connect_args.getD {}
        = (({} : Extra).engine_params.getD {}).connect_args.getD {}
    ∧ update_encrypted_extra_params [] ⟨none, none⟩ {} = ({}, none) :=
  no_cert_no_extra_unchanged id ⟨none, none⟩ {} [] {} rfl rfl

/-- C9: whenever the encrypted extra parses and names any authentication
method, the result of `update_encrypted_extra_params` has
`connect_args["http_scheme"] = "https"` (and a materialized `connect_args`
entry) — including on the path where the disallowed-method security error
is raised, so that error path mutates the caller's `params`, unlike the
parse-failure path. -/
theorem https_forced_before_auth_dispatch (allowed_extra_auths : List String)
    (database : Database) (params : EngineParams) (m : String)
    (ap : Option AuthParams)
    (hext : database.encrypted_extra = some (.parsed (some m) ap))
    (hne : m ≠ "") :
    (((update_encrypted_extra_params allowed_extra_auths database params).1.connect_args.getD {}).http_scheme
        = some "https")
    ∧ (update_encrypted_extra_params allowed_extra_auths database params).1.connect_args ≠ none
    ∧ (m ≠ "basic" → m ≠ "kerberos" → m ≠ "jwt" → m ∉ allowed_extra_auths →
        (update_encrypted_extra_params allowed_extra_auths database params).2
          = some (.securityValueError m)) := by
  by_cases hb : m = "basic"
  · refine ⟨?_, ?_, fun h1 _ _ _ => absurd hb h1⟩ <;>
      simp [update_encrypted_extra_params, hext, hne, hb]
  by_cases hk : m = "kerberos"
  · refine ⟨?_, ?_, fun _ h2 _ _ => absurd hk h2⟩ <;>
      simp [update_encrypted_extra_params, hext, hne, hb, hk]
  by_cases hj : m = "jwt"
  · refine ⟨?_, ?_, fun _ _ h3 _ => absurd hj h3⟩ <;>
      simp [update_encrypted_extra_params, hext, hne, hb, hk, hj]
  by_cases ha : m ∈ allowed_extra_auths
  · refine ⟨?_, ?_, fun _ _ _ h4 => absurd ha h4⟩ <;>
      simp [update_encrypted_extra_params, hext, hne, hb, hk, hj, ha]
  · refine ⟨?_, ?_, fun _ _ _ _ => ?_⟩ <;>
      simp [update_encrypted_extra_params, hext, hne, hb, hk, hj, ha]

/-- C9 witness: the disallowed method `evil` forces `https` into the
caller's params even though the security error is raised. -/
theorem https_forced_before_auth_dispatch_witness :
    (((update_encrypted_extra_params [] ⟨none, some (.parsed (some "evil") (some []))⟩ {}).1.connect_args.getD {}).http_scheme
        = some "https")
    ∧ (update_encrypted_extra_params [] ⟨none, some (.parsed (some "evil") (some []))⟩ {}).1.connect_args ≠ none
    ∧ ("evil" ≠ "basic" → "evil" ≠ "kerberos" → "evil" ≠ "jwt" →
        "evil" ∉ ([] : List String) →
        (update_encrypted_extra_params [] ⟨none, some (.parsed (some "evil") (some []))⟩ {}).2
          = some (.securityValueError "evil")) :=
  https_forced_before_auth_dispatch [] _ {} "evil" (some []) rfl (by decide)

/-- C10: `convert_dttm` is case-insensitive in its target type — it gives
the same result on `target_type` and on its upper-cased form, so lowercase
or mixed-case spellings are accepted. -/
theorem convert_dttm_case_insensitive (target_type : String) (dttm : PyDatetime) :
    convert_dttm target_type dttm = convert_dttm (pyUpper target_type) dttm := by
  unfold convert_dttm
  rw [pyUpper_idem]

end TrinoSpec
